import Mathlib

/-!
Verification of the Gantt-row renderer
(src/airflow/www/static/js/dag/details/gantt/Row.tsx).

Shallow embedding: timestamps are integers (milliseconds), pixel arithmetic
is exact rational arithmetic wrapped in a JavaScript-number type JsNum that
also carries the non-finite values (Infinity, -Infinity, NaN) produced by
division by zero, so that the behaviour of the source on a zero-length
reference window is captured faithfully.
-/

namespace GanttRow

/-- Timestamps in milliseconds since the epoch. The source stores ISO-8601
strings whose lexicographic order agrees with chronological order; we embed
them as integers. -/
abbrev Timestamp := Int

/-- One execution record of a task for a specific run. Mirrors the fields of
the source TaskInstance that Row.tsx reads. -/
structure TaskInstance where
  runId : Option String
  taskId : Option String
  state : Option String
  startDate : Option Timestamp
  endDate : Option Timestamp
  queuedDttm : Option Timestamp
  tryNumber : Option Nat
deriving DecidableEq, Repr

/-- Historical failed-attempt record for a task. -/
structure TaskFail where
  taskId : Option String
  startDate : Option Timestamp
  endDate : Option Timestamp
deriving DecidableEq, Repr

/-- Task tree node: identifier, instances (one per run), optional children. -/
inductive Task where
  | node (id : Option String) (instances : List TaskInstance)
      (children : Option (List Task))

def Task.id : Task → Option String
  | .node i _ _ => i

def Task.instances : Task → List TaskInstance
  | .node _ is _ => is

def Task.children : Task → Option (List Task)
  | .node _ _ c => c

/-- Ambient selection state consumed through useSelection. -/
structure Selection where
  runId : Option String
  taskId : Option String

/-- Props of the Row component. -/
structure RowProps where
  ganttWidth : ℚ
  openGroupIds : List String
  task : Task
  ganttStartDate : Option Timestamp
  ganttEndDate : Option Timestamp

/-- JavaScript number: a finite rational or one of the non-finite values that
JavaScript division by zero produces. -/
inductive JsNum where
  | fin (q : ℚ)
  | posInf
  | negInf
  | nan
deriving DecidableEq, Repr

/-- JavaScript division a / b, with the IEEE behaviour on b = 0:
positive / 0 = Infinity, negative / 0 = -Infinity, 0 / 0 = NaN. -/
def jsDiv (a b : ℚ) : JsNum :=
  if b ≠ 0 then .fin (a / b)
  else if 0 < a then .posInf
  else if a < 0 then .negInf
  else .nan

/-- Multiplication of a JavaScript number by a finite factor, with the IEEE
sign rules for infinities and Infinity * 0 = NaN. -/
def JsNum.mul : JsNum → ℚ → JsNum
  | .fin q, c => .fin (q * c)
  | .posInf, c => if 0 < c then .posInf else if c < 0 then .negInf else .nan
  | .negInf, c => if 0 < c then .negInf else if c < 0 then .posInf else .nan
  | .nan, _ => .nan

/-- Addition of JavaScript numbers; NaN absorbs, opposite infinities give NaN. -/
def JsNum.add : JsNum → JsNum → JsNum
  | .nan, _ => .nan
  | _, .nan => .nan
  | .posInf, .negInf => .nan
  | .negInf, .posInf => .nan
  | .posInf, _ => .posInf
  | _, .posInf => .posInf
  | .negInf, _ => .negInf
  | _, .negInf => .negInf
  | .fin a, .fin b => .fin (a + b)

/-- JavaScript comparison x < c against a finite bound: NaN compares false,
Infinity is not below any finite bound, -Infinity is below every one. -/
def JsNum.ltq : JsNum → ℚ → Bool
  | .fin q, c => decide (q < c)
  | .posInf, _ => false
  | .negInf, _ => true
  | .nan, _ => false

/-- JavaScript comparison x <= y on numbers: false whenever NaN is involved. -/
def JsNum.leb : JsNum → JsNum → Bool
  | .nan, _ => false
  | _, .nan => false
  | .negInf, _ => true
  | _, .negInf => false
  | _, .posInf => true
  | .posInf, _ => false
  | .fin a, .fin b => decide (a ≤ b)

/-- Modelled from the spec: getDuration is defined in src/datetime_utils,
which is not under src/. Spec 4.1: duration(a, b) = b - a in milliseconds
if both timestamps are defined, else 0; absent timestamps never raise. -/
def getDuration : Option Timestamp → Option Timestamp → Int
  | some a, some b => b - a
  | _, _ => 0

/-- JavaScript x || d on an optional string x: the fallback d is used when x
is undefined/null or the empty string (both falsy). -/
def jsOrDefault : Option String → String → String
  | some s, d => if s = ("") then d else s
  | none, d => d

/-- JavaScript truthiness of an optional string: defined and non-empty. -/
def jsTruthyStr : Option String → Bool
  | some s => decide (s ≠ (""))
  | none => false

/-- Mirrors the source: hasValidQueuedDttm =
!!instance?.queuedDttm && (instance?.startDate && instance?.queuedDttm
? instance.queuedDttm < instance.startDate : true). -/
def hasValidQueuedDttm (inst : Option TaskInstance) : Bool :=
  (inst.bind TaskInstance.queuedDttm).isSome &&
    (match inst.bind TaskInstance.startDate, inst.bind TaskInstance.queuedDttm with
     | some s, some q => decide (q < s)
     | _, _ => true)

/-- Mirrors the source: instance = task.instances.find(ti => ti.runId === runId). -/
def resolveInstance (task : Task) (runId : Option String) : Option TaskInstance :=
  task.instances.find? (fun ti => ti.runId == runId)

/-- Mirrors the source: enabled = !!(instance?.tryNumber && instance?.tryNumber > 1)
&& !!task.id (a tryNumber of 0 is falsy). -/
def fetchEnabled (task : Task) (inst : Option TaskInstance) : Bool :=
  (match inst.bind TaskInstance.tryNumber with
   | some n => decide (n ≠ 0) && decide (1 < n)
   | none => false) && jsTruthyStr task.id

/-- Mirrors the source: taskDuration = getDuration(instance?.startDate, instance?.endDate). -/
def taskDurationOf (inst : Option TaskInstance) : Int :=
  getDuration (inst.bind TaskInstance.startDate) (inst.bind TaskInstance.endDate)

/-- Mirrors the source: queuedDuration = hasValidQueuedDttm
? getDuration(instance?.queuedDttm, instance?.startDate) : 0. -/
def queuedDurationOf (inst : Option TaskInstance) : Int :=
  if hasValidQueuedDttm inst then
    getDuration (inst.bind TaskInstance.queuedDttm) (inst.bind TaskInstance.startDate)
  else 0

/-- First defined of two optional timestamps, JavaScript a || b. -/
def orTimestamp : Option Timestamp → Option Timestamp → Option Timestamp
  | some a, _ => some a
  | none, b => b

/-- Mirrors the source: taskStartOffset = hasValidQueuedDttm
? getDuration(ganttStartDate, instance?.queuedDttm || instance?.startDate)
: getDuration(ganttStartDate, instance?.startDate). -/
def taskStartOffsetOf (gs : Option Timestamp) (inst : Option TaskInstance) : Int :=
  if hasValidQueuedDttm inst then
    getDuration gs
      (orTimestamp (inst.bind TaskInstance.queuedDttm) (inst.bind TaskInstance.startDate))
  else getDuration gs (inst.bind TaskInstance.startDate)

/-- Pixel geometry computed by the Row component. -/
structure Geometry where
  width : JsNum
  queuedWidth : JsNum
  offsetMargin : JsNum
deriving DecidableEq, Repr

/-- Mirrors the geometry block of the source: percents are duration / runDuration,
widths are ganttWidth * percent with a 5px floor (unconditional for the main
bar, conditional on hasValidQueuedDttm for the queued bar), and
offsetMargin = taskStartOffsetPercent * ganttWidth with no floor. -/
def rowGeometry (ganttWidth : ℚ) (gs ge : Option Timestamp)
    (inst : Option TaskInstance) : Geometry :=
  let runDuration : Int := getDuration gs ge
  let taskDurationPercent := jsDiv (taskDurationOf inst) runDuration
  let taskStartOffsetPercent := jsDiv (taskStartOffsetOf gs inst) runDuration
  let queuedDurationPercent := jsDiv (queuedDurationOf inst) runDuration
  let width0 := taskDurationPercent.mul ganttWidth
  let width := if width0.ltq 5 then .fin 5 else width0
  let queuedWidth0 :=
    if hasValidQueuedDttm inst then queuedDurationPercent.mul ganttWidth else .fin 0
  let queuedWidth :=
    if hasValidQueuedDttm inst && queuedWidth0.ltq 5 then .fin 5 else queuedWidth0
  { width := width
    queuedWidth := queuedWidth
    offsetMargin := taskStartOffsetPercent.mul ganttWidth }

/-- Modelled from the spec: moment(tf.startDate).isAfter(ganttStartDate) uses
the external moment library (a page-level global, not under src/); spec 4.4
reads it as tf.startDate strictly after ganttStartDate. Undefined operands
compare false. -/
def isAfter : Option Timestamp → Option Timestamp → Bool
  | some a, some b => decide (b < a)
  | _, _ => false

/-- The clickable instance bar (Tooltip + Flex) rendered when an instance
resolves for the active run. queuedSegment is the separate queued SimpleStatus,
present exactly when instance.state !== queued and hasValidQueuedDttm. -/
structure InstanceBar where
  flexWidth : JsNum
  offsetMargin : JsNum
  queuedSegment : Option JsNum
  mainWidth : JsNum
  selectRunId : Option String
  selectTaskId : Option String
deriving DecidableEq, Repr

/-- Rendered output of one Row invocation: the optional instance bar, the
filtered failure markers, and one child-Row invocation per rendered child. -/
structure Rendered where
  instanceBar : Option InstanceBar
  failMarkers : List TaskFail
  children : List RowProps

/-- Mirrors the render body of Row.tsx. taskFails is the data returned by the
useTaskFails hook (none while not loaded; the hook contract, modelled from
the spec, additionally guarantees none whenever fetchEnabled is false). -/
def renderRow (props : RowProps) (sel : Selection)
    (taskFails : Option (List TaskFail)) : Rendered :=
  let inst := resolveInstance props.task sel.runId
  let geo := rowGeometry props.ganttWidth props.ganttStartDate props.ganttEndDate inst
  let isOpen := props.openGroupIds.contains (jsOrDefault props.task.id (""))
  { instanceBar :=
      inst.map (fun i =>
        { flexWidth := geo.width.add geo.queuedWidth
          offsetMargin := geo.offsetMargin
          queuedSegment :=
            if (i.state != some ("queued")) && hasValidQueuedDttm (some i) then
              some geo.queuedWidth
            else none
          mainWidth := geo.width
          selectRunId := i.runId
          selectTaskId := i.taskId })
    failMarkers :=
      (taskFails.getD []).filter (fun tf =>
        decide (tf.startDate ≠ inst.bind TaskInstance.startDate) &&
          isAfter tf.startDate props.ganttStartDate)
    children :=
      if isOpen then
        match props.task.children with
        | some cs =>
            cs.map (fun c =>
              { ganttWidth := props.ganttWidth
                openGroupIds := props.openGroupIds
                task := c
                ganttStartDate := props.ganttStartDate
                ganttEndDate := props.ganttEndDate })
        | none => []
      else []
  }

/-! Concrete fixtures used by closed counterexample and witness theorems. -/

/-- Instance in state queued with a valid queuedDttm (queuedDttm < startDate). -/
def queuedStateInst : TaskInstance :=
  { runId := some ("r1"), taskId := some ("t2"), state := some ("queued")
    startDate := some 5000, endDate := some 30000
    queuedDttm := some 1000, tryNumber := some 1 }

def queuedStateProps : RowProps :=
  { ganttWidth := 500, openGroupIds := []
    task := Task.node (some ("t2")) [queuedStateInst] none
    ganttStartDate := some 0, ganttEndDate := some 100000 }

/-- Selection whose runId matches the fixtures. -/
def selR1 : Selection := { runId := some ("r1"), taskId := none }

/-- Instance with a positive task duration, used on a zero-length window. -/
def zeroWindowInst : TaskInstance :=
  { runId := some ("r1"), taskId := some ("t3"), state := some ("success")
    startDate := some 0, endDate := some 10000
    queuedDttm := none, tryNumber := some 1 }

def zeroWindowProps : RowProps :=
  { ganttWidth := 500, openGroupIds := []
    task := Task.node (some ("t3")) [zeroWindowInst] none
    ganttStartDate := some 0, ganttEndDate := some 0 }

/-- Instance whose startDate equals its endDate: a zero task duration. -/
def zeroDurationInst : TaskInstance :=
  { runId := some ("r1"), taskId := some ("t4"), state := some ("success")
    startDate := some 10000, endDate := some 10000
    queuedDttm := none, tryNumber := some 1 }

/-- Two instances on a reversed window (ganttEndDate before ganttStartDate),
the second starting later than the first. -/
def revWindowInst1 : TaskInstance :=
  { runId := some ("r1"), taskId := some ("t5"), state := some ("success")
    startDate := some 110000, endDate := some 130000
    queuedDttm := none, tryNumber := some 1 }

def revWindowInst2 : TaskInstance :=
  { runId := some ("r1"), taskId := some ("t5"), state := some ("success")
    startDate := some 120000, endDate := some 130000
    queuedDttm := none, tryNumber := some 1 }

/-! Helper lemmas shared by several claim theorems. -/

theorem jsDiv_of_ne_zero (a b : ℚ) (h : b ≠ 0) : jsDiv a b = JsNum.fin (a / b) := by
  simp [jsDiv, h]

theorem hasValidQueuedDttm_iff (i : TaskInstance) :
    hasValidQueuedDttm (some i) = true ↔
      (i.queuedDttm.isSome = true ∧
        (i.startDate = none ∨
          ∃ q s, i.queuedDttm = some q ∧ i.startDate = some s ∧ q < s)) := by
  cases hq : i.queuedDttm <;> cases hs : i.startDate <;>
    simp [hasValidQueuedDttm, hq, hs]

theorem isAfter_iff (a b : Option Timestamp) :
    isAfter a b = true ↔ ∃ t g, a = some t ∧ b = some g ∧ g < t := by
  cases a <;> cases b <;> simp [isAfter]

theorem renderRow_children_of_open (props : RowProps) (sel : Selection)
    (taskFails : Option (List TaskFail)) (cs : List Task)
    (ho : props.openGroupIds.contains (jsOrDefault props.task.id ("")) = true)
    (hc : props.task.children = some cs) :
    (renderRow props sel taskFails).children =
      cs.map (fun c =>
        { ganttWidth := props.ganttWidth
          openGroupIds := props.openGroupIds
          task := c
          ganttStartDate := props.ganttStartDate
          ganttEndDate := props.ganttEndDate }) := by
  have ho' : jsOrDefault props.task.id ("") ∈ props.openGroupIds := by simpa using ho
  simp [renderRow, ho', hc]

theorem renderRow_children_ne_nil (props : RowProps) (sel : Selection)
    (taskFails : Option (List TaskFail)) :
    (renderRow props sel taskFails).children ≠ [] ↔
      (props.openGroupIds.contains (jsOrDefault props.task.id ("")) = true ∧
        ∃ cs, props.task.children = some cs ∧ cs ≠ []) := by
  by_cases ho : jsOrDefault props.task.id ("") ∈ props.openGroupIds
  · cases hc : props.task.children with
    | none => simp [renderRow, ho, hc]
    | some cs => simp [renderRow, ho, hc, List.map_eq_nil_iff]
  · simp [renderRow, ho]

/-! Claim theorems. -/

/-- Instance of the spec's worked example: startDate = T0+10s, endDate = T0+30s,
no queuedDttm, on the window T0 .. T0+100s. -/
def exampleInst : TaskInstance :=
  { runId := some ("r1"), taskId := some ("t1"), state := some ("success")
    startDate := some 10000, endDate := some 30000
    queuedDttm := none, tryNumber := some 1 }

/-- Instance starting later than exampleInst inside the same window. -/
def laterInst : TaskInstance :=
  { runId := some ("r1"), taskId := some ("t1"), state := some ("success")
    startDate := some 40000, endDate := some 60000
    queuedDttm := none, tryNumber := some 1 }

/-- Instance with a valid queued interval and a non-queued state. -/
def validQueuedInst : TaskInstance :=
  { runId := some ("r1"), taskId := some ("t6"), state := some ("success")
    startDate := some 5000, endDate := some 30000
    queuedDttm := some 2000, tryNumber := some 1 }

def validQueuedProps : RowProps :=
  { ganttWidth := 500, openGroupIds := []
    task := Task.node (some ("t6")) [validQueuedInst] none
    ganttStartDate := some 0, ganttEndDate := some 100000 }

/-- Group task with one child, its id listed in openGroupIds. -/
def openGroupProps : RowProps :=
  { ganttWidth := 500, openGroupIds := [("g1")]
    task := Task.node (some ("g1")) []
      (some [Task.node (some ("g1.c1")) [] none])
    ganttStartDate := some 0, ganttEndDate := some 100000 }

/-- Group task with a child but an undefined id; openGroupIds holds the empty
string. -/
def emptyIdProps : RowProps :=
  { ganttWidth := 500, openGroupIds := [("")]
    task := Task.node none []
      (some [Task.node (some ("c1")) [] none])
    ganttStartDate := some 0, ganttEndDate := some 100000 }

/-- Row whose task has no instance for the selected run. -/
def noMatchProps : RowProps :=
  { ganttWidth := 500, openGroupIds := []
    task := Task.node (some ("t7"))
      [{ runId := some ("r2"), taskId := some ("t7"), state := some ("success")
         startDate := some 10000, endDate := some 30000
         queuedDttm := none, tryNumber := some 3 }] none
    ganttStartDate := some 0, ganttEndDate := some 100000 }

/-- Claim C1: for a resolved instance with defined startDate and endDate and a
positive runDuration, the pixel geometry is the proportional mapping:
offsetMargin = taskStartOffset / runDuration * ganttWidth exactly, and
width = taskDuration / runDuration * ganttWidth subject to the 5px minimum. -/
theorem claim1_proportional_geometry (W : ℚ) (gs ge : Option Timestamp)
    (i : TaskInstance) (s e : Timestamp)
    (_hs : i.startDate = some s) (_he : i.endDate = some e)
    (hrd : 0 < getDuration gs ge) :
    (rowGeometry W gs ge (some i)).offsetMargin
        = JsNum.fin ((taskStartOffsetOf gs (some i) : ℚ) / (getDuration gs ge : ℚ) * W) ∧
      (rowGeometry W gs ge (some i)).width
        = (if (taskDurationOf (some i) : ℚ) / (getDuration gs ge : ℚ) * W < 5
           then JsNum.fin 5
           else JsNum.fin ((taskDurationOf (some i) : ℚ) / (getDuration gs ge : ℚ) * W)) := by
  have hne : ((getDuration gs ge : Int) : ℚ) ≠ 0 :=
    ne_of_gt (by exact_mod_cast hrd)
  constructor
  · simp [rowGeometry, jsDiv_of_ne_zero _ _ hne, JsNum.mul]
  · simp only [rowGeometry, jsDiv_of_ne_zero _ _ hne, JsNum.mul, JsNum.ltq]
    split <;> rename_i hcond <;> simp only [decide_eq_true_eq] at hcond
    · rw [if_pos hcond]
    · rw [if_neg hcond]

/-- Claim C1 witness: the spec's worked example — window T0 .. T0+100s at
500px, instance T0+10s .. T0+30s — yields offsetMargin 50px and width 100px. -/
theorem claim1_witness :
    (0 : Int) < getDuration (some 0) (some 100000) ∧
      (rowGeometry 500 (some 0) (some 100000) (some exampleInst)).offsetMargin
        = JsNum.fin 50 ∧
      (rowGeometry 500 (some 0) (some 100000) (some exampleInst)).width
        = JsNum.fin 100 := by
  have h := claim1_proportional_geometry 500 (some 0) (some 100000) exampleInst
    10000 30000 rfl rfl (by decide)
  refine ⟨by decide, ?_, ?_⟩
  · rw [h.1]
    norm_num [taskStartOffsetOf, hasValidQueuedDttm, exampleInst, getDuration,
      orTimestamp]
  · rw [h.2]
    norm_num [taskDurationOf, exampleInst, getDuration]

/-- Claim C2, counterexample: an instance whose state is queued and whose
queuedDttm is defined and earlier than its startDate satisfies the claimed
rendering condition, yet the rendered bar carries no queued segment: the
source additionally requires instance.state !== queued. -/
theorem claim2_counterexample :
    (renderRow queuedStateProps selR1 none).instanceBar.map InstanceBar.queuedSegment
        = some none ∧
      queuedStateInst.queuedDttm = some 1000 ∧
      queuedStateInst.startDate = some 5000 ∧ (1000 : Int) < 5000 := by
  decide

/-- Claim C3: on a zero-length reference window (runDuration = 0) the source
has no guard: the positive task duration divided by zero yields Infinity,
which survives the width floor and is propagated into the rendered bar's
widths, and the zero offset divided by zero yields NaN in the left offset. -/
theorem claim3_nonfinite_propagates :
    getDuration (some 0) (some 0) = 0 ∧
      taskDurationOf (some zeroWindowInst) = 10000 ∧
      (renderRow zeroWindowProps selR1 none).instanceBar.map InstanceBar.mainWidth
        = some JsNum.posInf ∧
      (renderRow zeroWindowProps selR1 none).instanceBar.map InstanceBar.flexWidth
        = some JsNum.posInf ∧
      (renderRow zeroWindowProps selR1 none).instanceBar.map InstanceBar.offsetMargin
        = some JsNum.nan := by
  decide

/-- Claim C4, counterexample: an instance whose startDate equals its endDate
has taskDuration = 0, yet its computed width 0 is floored to 5 pixels —
the source applies the floor regardless of the source duration. -/
theorem claim4_counterexample :
    taskDurationOf (some zeroDurationInst) = 0 ∧
      (rowGeometry 500 (some 0) (some 100000) (some zeroDurationInst)).width
        = JsNum.fin 5 := by
  refine ⟨by decide, ?_⟩
  norm_num [rowGeometry, taskDurationOf, getDuration, zeroDurationInst,
    hasValidQueuedDttm, queuedDurationOf, taskStartOffsetOf, jsDiv,
    JsNum.mul, JsNum.ltq]

/-- Claim C9, counterexample: on a reversed window (runDuration = -100000)
offsetMargin is strictly decreasing in taskStartOffset, refuting monotone
increase for every fixed runDuration. -/
theorem claim9_counterexample :
    taskStartOffsetOf (some 100000) (some revWindowInst1)
        < taskStartOffsetOf (some 100000) (some revWindowInst2) ∧
      (rowGeometry 500 (some 100000) (some 0) (some revWindowInst1)).offsetMargin
        = JsNum.fin (-50) ∧
      (rowGeometry 500 (some 100000) (some 0) (some revWindowInst2)).offsetMargin
        = JsNum.fin (-100) ∧
      ¬ ((-50 : ℚ) ≤ (-100 : ℚ)) := by
  refine ⟨by decide, ?_, ?_, by norm_num⟩ <;>
    norm_num [rowGeometry, taskDurationOf, getDuration, revWindowInst1,
      revWindowInst2, hasValidQueuedDttm, queuedDurationOf, taskStartOffsetOf,
      orTimestamp, jsDiv, JsNum.mul, JsNum.ltq]

/-- Claim C5: when no TaskInstance matches the active runId, only the row's
background frame is rendered — no instance bar (hence no tooltip or queued
segment) and, under the fetch-hook contract that a disabled fetch returns no
data, no failure markers; child recursion is unaffected and nothing errors. -/
theorem claim5_frame_only (props : RowProps) (sel : Selection)
    (taskFails : Option (List TaskFail))
    (hnone : resolveInstance props.task sel.runId = none)
    (hcontract :
      fetchEnabled props.task (resolveInstance props.task sel.runId) = false →
        taskFails = none) :
    (renderRow props sel taskFails).instanceBar = none ∧
      (renderRow props sel taskFails).failMarkers = [] := by
  have hdis : fetchEnabled props.task (resolveInstance props.task sel.runId) = false := by
    simp [fetchEnabled, hnone]
  have ht := hcontract hdis
  constructor
  · simp [renderRow, hnone]
  · simp [renderRow, ht]

/-- Claim C5 witness: a task whose only instance belongs to run r2 under a
selection of run r1 renders neither a bar nor failure markers. -/
theorem claim5_witness :
    resolveInstance noMatchProps.task selR1.runId = none ∧
      (renderRow noMatchProps selR1 none).instanceBar = none ∧
      (renderRow noMatchProps selR1 none).failMarkers = [] :=
  ⟨rfl, claim5_frame_only noMatchProps selR1 none rfl (fun _ => rfl)⟩

/-- Claim C6: child rows are produced exactly when the open-group test
succeeds and the task has a non-empty children list; when produced there is
one child row per child, in order, each receiving the parent's ganttWidth,
openGroupIds, ganttStartDate and ganttEndDate. -/
theorem claim6_children (props : RowProps) (sel : Selection)
    (taskFails : Option (List TaskFail)) :
    ((renderRow props sel taskFails).children ≠ [] ↔
      (props.openGroupIds.contains (jsOrDefault props.task.id ("")) = true ∧
        ∃ cs, props.task.children = some cs ∧ cs ≠ [])) ∧
      (∀ cs, props.openGroupIds.contains (jsOrDefault props.task.id ("")) = true →
        props.task.children = some cs →
        (renderRow props sel taskFails).children =
          cs.map (fun c =>
            { ganttWidth := props.ganttWidth
              openGroupIds := props.openGroupIds
              task := c
              ganttStartDate := props.ganttStartDate
              ganttEndDate := props.ganttEndDate })) := by
  refine ⟨?_, fun cs ho hc => renderRow_children_of_open props sel taskFails cs ho hc⟩
  have h := renderRow_children_ne_nil props sel taskFails
  simpa using h

/-- Claim C6 witness: an open group with one child produces exactly the
child's row invocation, carrying the parent's window, width and open set. -/
theorem claim6_witness :
    openGroupProps.openGroupIds.contains (jsOrDefault openGroupProps.task.id ("")) = true ∧
      openGroupProps.task.children = some [Task.node (some ("g1.c1")) [] none] ∧
      (renderRow openGroupProps selR1 none).children =
        [{ ganttWidth := 500, openGroupIds := [("g1")]
           task := Task.node (some ("g1.c1")) [] none
           ganttStartDate := some 0, ganttEndDate := some 100000 }] := by
  refine ⟨by decide, rfl, ?_⟩
  have h := (claim6_children openGroupProps selR1 none).2
    [Task.node (some ("g1.c1")) [] none] (by decide) rfl
  simpa using h

/-- Claim C10: a task whose identifier is undefined or empty is tested against
the empty string, so its children are expanded exactly when openGroupIds
contains the empty string (and the children list is non-empty). -/
theorem claim10_empty_id (props : RowProps) (sel : Selection)
    (taskFails : Option (List TaskFail))
    (h : props.task.id = none ∨ props.task.id = some ("")) :
    jsOrDefault props.task.id ("") = ("") ∧
      ((renderRow props sel taskFails).children ≠ [] ↔
        (props.openGroupIds.contains ("") = true ∧
          ∃ cs, props.task.children = some cs ∧ cs ≠ [])) := by
  have hid : jsOrDefault props.task.id ("") = ("") := by
    rcases h with h | h <;> simp [jsOrDefault, h]
  refine ⟨hid, ?_⟩
  have hne := renderRow_children_ne_nil props sel taskFails
  rw [hid] at hne
  exact hne

/-- Claim C10 witness: a group with no id and one child is expanded when
openGroupIds contains the empty string. -/
theorem claim10_witness :
    (emptyIdProps.task.id = none ∨ emptyIdProps.task.id = some ("")) ∧
      jsOrDefault emptyIdProps.task.id ("") = ("") ∧
      ((renderRow emptyIdProps selR1 none).children ≠ [] ↔
        (emptyIdProps.openGroupIds.contains ("") = true ∧
          ∃ cs, emptyIdProps.task.children = some cs ∧ cs ≠ [])) :=
  ⟨Or.inl rfl, claim10_empty_id emptyIdProps selR1 none (Or.inl rfl)⟩

/-- Row props around the spec's worked-example instance. -/
def exampleProps : RowProps :=
  { ganttWidth := 500, openGroupIds := []
    task := Task.node (some ("t1")) [exampleInst] none
    ganttStartDate := some 0, ganttEndDate := some 100000 }

/-- Failure record inside the window and distinct from exampleInst's start. -/
def failEntry : TaskFail :=
  { taskId := some ("t1"), startDate := some 3000, endDate := some 4000 }

/-- Claim C2 (amended): a queued segment is rendered iff the instance's state
is not queued AND queuedDttm is defined AND (startDate is undefined OR
queuedDttm is earlier than startDate); in particular queuedDttm equal to
startDate still renders no queued segment. -/
theorem claim2_amended_queued_segment (props : RowProps) (sel : Selection)
    (taskFails : Option (List TaskFail)) (i : TaskInstance)
    (hi : resolveInstance props.task sel.runId = some i) :
    (((renderRow props sel taskFails).instanceBar.bind InstanceBar.queuedSegment).isSome
        = true) ↔
      (i.state ≠ some ("queued") ∧ i.queuedDttm.isSome = true ∧
        (i.startDate = none ∨
          ∃ q s, i.queuedDttm = some q ∧ i.startDate = some s ∧ q < s)) := by
  have key : ((renderRow props sel taskFails).instanceBar.bind
        InstanceBar.queuedSegment).isSome
      = ((i.state != some ("queued")) && hasValidQueuedDttm (some i)) := by
    simp only [renderRow, hi, Option.map_some', Option.some_bind]
    split <;> rename_i hcond <;> simp_all
  rw [key]
  simp only [Bool.and_eq_true, bne_iff_ne, ne_eq, hasValidQueuedDttm_iff]

/-- Claim C2 amended witness: an instance in state success with
queuedDttm 2000 earlier than startDate 5000 does render a queued segment. -/
theorem claim2_amended_witness :
    resolveInstance validQueuedProps.task selR1.runId = some validQueuedInst ∧
      ((((renderRow validQueuedProps selR1 none).instanceBar.bind
            InstanceBar.queuedSegment).isSome = true) ↔
        (validQueuedInst.state ≠ some ("queued") ∧
          validQueuedInst.queuedDttm.isSome = true ∧
          (validQueuedInst.startDate = none ∨
            ∃ q s, validQueuedInst.queuedDttm = some q ∧
              validQueuedInst.startDate = some s ∧ q < s))) :=
  ⟨rfl, claim2_amended_queued_segment validQueuedProps selR1 none validQueuedInst rfl⟩

/-- Claim C4 (amended): whenever runDuration is non-zero, the 5px floor
applies to any computed width below 5 regardless of the source duration: the
main bar's rendered width is always at least 5px (zero-duration sources
included), the queued bar's is at least 5px when queued is valid, and the
queued width is exactly 0 when queued is invalid. -/
theorem claim4_amended_floor (W : ℚ) (gs ge : Option Timestamp)
    (inst : Option TaskInstance) (h : getDuration gs ge ≠ 0) :
    (∃ q, (rowGeometry W gs ge inst).width = JsNum.fin q ∧ 5 ≤ q) ∧
      (hasValidQueuedDttm inst = true →
        ∃ q, (rowGeometry W gs ge inst).queuedWidth = JsNum.fin q ∧ 5 ≤ q) ∧
      (hasValidQueuedDttm inst = false →
        (rowGeometry W gs ge inst).queuedWidth = JsNum.fin 0) := by
  have hne : ((getDuration gs ge : Int) : ℚ) ≠ 0 := by exact_mod_cast h
  refine ⟨?_, ?_, ?_⟩
  · simp only [rowGeometry, jsDiv_of_ne_zero _ _ hne, JsNum.mul, JsNum.ltq]
    split <;> rename_i hc <;> simp only [decide_eq_true_eq] at hc
    · exact ⟨5, rfl, le_refl 5⟩
    · exact ⟨_, rfl, not_lt.mp hc⟩
  · intro hq
    simp only [rowGeometry, jsDiv_of_ne_zero _ _ hne, JsNum.mul, JsNum.ltq, hq,
      if_true, Bool.true_and]
    split <;> rename_i hc <;> simp only [decide_eq_true_eq] at hc
    · exact ⟨5, rfl, le_refl 5⟩
    · exact ⟨_, rfl, not_lt.mp hc⟩
  · intro hq
    simp [rowGeometry, jsDiv_of_ne_zero _ _ hne, JsNum.mul, JsNum.ltq, hq]

/-- Claim C4 amended witness: a zero-duration instance on a 100s window still
gets a width of at least 5px, and its invalid queued bar has width 0. -/
theorem claim4_amended_witness :
    getDuration (some 0) (some 100000) ≠ 0 ∧
      (∃ q, (rowGeometry 500 (some 0) (some 100000) (some zeroDurationInst)).width
          = JsNum.fin q ∧ 5 ≤ q) ∧
      (hasValidQueuedDttm (some zeroDurationInst) = false →
        (rowGeometry 500 (some 0) (some 100000) (some zeroDurationInst)).queuedWidth
          = JsNum.fin 0) := by
  have h := claim4_amended_floor 500 (some 0) (some 100000) (some zeroDurationInst)
    (by decide)
  exact ⟨by decide, h.1, h.2.2⟩

/-- Claim C7: with a resolved instance and fetched TaskFail data, a failure
marker is produced exactly for the entries whose startDate differs from the
instance's startDate and is strictly after ganttStartDate. -/
theorem claim7_failure_markers (props : RowProps) (sel : Selection)
    (fs : List TaskFail) (i : TaskInstance)
    (hi : resolveInstance props.task sel.runId = some i) (tf : TaskFail) :
    (tf ∈ (renderRow props sel (some fs)).failMarkers ↔
      (tf ∈ fs ∧ tf.startDate ≠ i.startDate ∧
        ∃ t g, tf.startDate = some t ∧ props.ganttStartDate = some g ∧ g < t)) := by
  simp [renderRow, hi, List.mem_filter, isAfter_iff, and_assoc]

/-- Claim C7 witness: a failure at 3000 in the window starting at 0, distinct
from the instance's start 10000, yields a marker. -/
theorem claim7_witness :
    resolveInstance exampleProps.task selR1.runId = some exampleInst ∧
      (failEntry ∈ (renderRow exampleProps selR1 (some [failEntry])).failMarkers ↔
        (failEntry ∈ [failEntry] ∧ failEntry.startDate ≠ exampleInst.startDate ∧
          ∃ t g, failEntry.startDate = some t ∧
            exampleProps.ganttStartDate = some g ∧ g < t)) :=
  ⟨rfl, claim7_failure_markers exampleProps selR1 [failEntry] exampleInst rfl failEntry⟩

/-- Claim C8: the failure-history fetch is enabled iff the resolved instance
has a tryNumber strictly greater than 1 and the task id is truthy; when
disabled, the hook contract (modelled from the spec) returns no data, so the
overlay renders no failure markers. -/
theorem claim8_fetch_gating (props : RowProps) (sel : Selection)
    (taskFails : Option (List TaskFail))
    (hcontract :
      fetchEnabled props.task (resolveInstance props.task sel.runId) = false →
        taskFails = none) :
    (fetchEnabled props.task (resolveInstance props.task sel.runId) = true ↔
      ((∃ i n, resolveInstance props.task sel.runId = some i ∧
          i.tryNumber = some n ∧ 1 < n) ∧
        ∃ s, props.task.id = some s ∧ s ≠ (""))) ∧
      (fetchEnabled props.task (resolveInstance props.task sel.runId) = false →
        (renderRow props sel taskFails).failMarkers = []) := by
  constructor
  · cases hres : resolveInstance props.task sel.runId with
    | none => simp [fetchEnabled, hres]
    | some i =>
      cases htn : i.tryNumber with
      | none => simp [fetchEnabled, hres, htn]
      | some n =>
        cases hid : props.task.id with
        | none => simp [fetchEnabled, jsTruthyStr, hres, htn, hid]
        | some s =>
          simp only [fetchEnabled, jsTruthyStr, hres, htn, hid, Option.some_bind,
            Bool.and_eq_true, decide_eq_true_eq, Option.some.injEq]
          constructor
          · rintro ⟨⟨-, hn⟩, hs⟩
            exact ⟨⟨i, n, rfl, htn, hn⟩, s, rfl, hs⟩
          · rintro ⟨⟨i', n', hi', htn', hn'⟩, s', hs', hne'⟩
            subst hi'
            subst hs'
            rw [htn] at htn'
            injection htn' with hnn
            subst hnn
            exact ⟨⟨by omega, hn'⟩, hne'⟩
  · intro hdis
    simp [renderRow, hcontract hdis]

/-- Claim C8 witness: with no resolved instance the fetch is disabled and no
failure markers are rendered. -/
theorem claim8_witness :
    fetchEnabled noMatchProps.task (resolveInstance noMatchProps.task selR1.runId)
        = false ∧
      (renderRow noMatchProps selR1 none).failMarkers = [] :=
  ⟨rfl, (claim8_fetch_gating noMatchProps selR1 none (fun _ => rfl)).2 rfl⟩

/-- Claim C9 (amended): for a fixed positive runDuration and a fixed
nonnegative ganttWidth, offsetMargin is monotonically increasing in
taskStartOffset. -/
theorem claim9_amended_monotone (W : ℚ) (gs ge : Option Timestamp)
    (i1 i2 : Option TaskInstance)
    (hrd : 0 < getDuration gs ge) (hW : 0 ≤ W)
    (h : taskStartOffsetOf gs i1 ≤ taskStartOffsetOf gs i2) :
    ∃ q1 q2,
      (rowGeometry W gs ge i1).offsetMargin = JsNum.fin q1 ∧
        (rowGeometry W gs ge i2).offsetMargin = JsNum.fin q2 ∧ q1 ≤ q2 := by
  have hrdq : (0 : ℚ) < ((getDuration gs ge : Int) : ℚ) := by exact_mod_cast hrd
  refine ⟨(taskStartOffsetOf gs i1 : ℚ) / (getDuration gs ge : ℚ) * W,
    (taskStartOffsetOf gs i2 : ℚ) / (getDuration gs ge : ℚ) * W, ?_, ?_, ?_⟩
  · simp [rowGeometry, jsDiv_of_ne_zero _ _ (ne_of_gt hrdq), JsNum.mul]
  · simp [rowGeometry, jsDiv_of_ne_zero _ _ (ne_of_gt hrdq), JsNum.mul]
  · have hcast : ((taskStartOffsetOf gs i1 : Int) : ℚ)
        ≤ ((taskStartOffsetOf gs i2 : Int) : ℚ) := by exact_mod_cast h
    gcongr

/-- Claim C9 amended witness: inside the 100s window at width 500, the
instance starting at 10s has a smaller offsetMargin than the one at 40s. -/
theorem claim9_amended_witness :
    (0 : Int) < getDuration (some 0) (some 100000) ∧ (0 : ℚ) ≤ 500 ∧
      taskStartOffsetOf (some 0) (some exampleInst)
        ≤ taskStartOffsetOf (some 0) (some laterInst) ∧
      ∃ q1 q2,
        (rowGeometry 500 (some 0) (some 100000) (some exampleInst)).offsetMargin
            = JsNum.fin q1 ∧
          (rowGeometry 500 (some 0) (some 100000) (some laterInst)).offsetMargin
            = JsNum.fin q2 ∧ q1 ≤ q2 :=
  ⟨by decide, by norm_num, by decide,
    claim9_amended_monotone 500 (some 0) (some 100000) (some exampleInst)
      (some laterInst) (by decide) (by norm_num) (by decide)⟩

end GanttRow
